import Mathlib

/-!
Shallow embedding of the `httpd` Go package: a small HTTP router with
middleware composition, centralized error rendering, a status-capturing
response-writer decorator, and Logger / Recover middleware.

Mutable state threaded through handlers is made explicit as a `World`
value: the response being built (headers, status-line writes, body), the
captured-status cells allocated by Logger's `responseWriter` decorator,
the structured log stream, and an event trace used to observe execution
order of middleware.
-/

namespace Httpd

/-- One hexadecimal digit, lowercase, as used by Go's JSON `\u00XX` escapes. -/
def hexDigit (n : Nat) : String :=
  String.singleton (if n < 10 then Char.ofNat (48 + n) else Char.ofNat (87 + n))

/-- Escaping of one character as in Go `encoding/json` (HTML escaping on):
quotes, backslash, common control characters, `<`, `>`, `&`, U+2028/U+2029,
and other control characters as `\u00XX`. -/
def jsonEscapeChar (c : Char) : String :=
  if c = '"' then "\\\""
  else if c = '\\' then "\\\\"
  else if c = '\n' then "\\n"
  else if c = '\r' then "\\r"
  else if c = '\t' then "\\t"
  else if c = '<' then "\\u003c"
  else if c = '>' then "\\u003e"
  else if c = '&' then "\\u0026"
  else if c.toNat = 8232 then "\\u2028"
  else if c.toNat = 8233 then "\\u2029"
  else if c.toNat < 32 then "\\u00" ++ hexDigit (c.toNat / 16) ++ hexDigit (c.toNat % 16)
  else String.singleton c

/-- Escape a whole string as Go `encoding/json` does. -/
def jsonEscape (s : String) : String :=
  String.join (s.data.map jsonEscapeChar)

/-- A JSON string literal: quoted escaped text. -/
def jsonQuote (s : String) : String :=
  "\"" ++ jsonEscape s ++ "\""

/-- Insertion into a key-sorted association list (Go marshals maps with
keys in sorted order). -/
def insertByKey (p : String × String) : List (String × String) → List (String × String)
  | [] => [p]
  | q :: qs => if p.1 ≤ q.1 then p :: q :: qs else q :: insertByKey p qs

/-- Sort an association list by key, as Go's map marshalling does. -/
def sortByKey (l : List (String × String)) : List (String × String) :=
  l.foldr insertByKey []

/-- Compact JSON object encoding of a string-to-string map: no whitespace,
keys sorted, one line. -/
def marshalStrMap (l : List (String × String)) : String :=
  "\x7b" ++ String.intercalate ","
    ((sortByKey l).map (fun p => jsonQuote p.1 ++ ":" ++ jsonQuote p.2)) ++ "\x7d"

/-- Values a handler may pass to `json.Marshal`: a `map[string]string`
(always encodable), or a value `json.Marshal` rejects (channel, function,
cyclic value, ...). -/
inductive Payload where
  | strMap (entries : List (String × String))
  | unsupported (desc : String)
deriving DecidableEq

/-- Go `json.Marshal`: compact encoding, or failure for unsupported values. -/
def jsonMarshal : Payload → Option String
  | .strMap l => some (marshalStrMap l)
  | .unsupported _ => none

/-- Go `error` values that can reach the router: an ordinary error carrying
only a message, or a `StatusError` (the `Error` interface: status, wrapped
error, exposure flag). -/
inductive GoErr where
  | basic (msg : String)
  | statusErr (status : Int) (err : GoErr) (isResponseError : Bool)
deriving DecidableEq

/-- Method `Error()`: `StatusError.Error` returns the wrapped error's message. -/
def GoErr.errMsg : GoErr → String
  | .basic m => m
  | .statusErr _ e _ => e.errMsg

/-- The `Status()` field of a classified error, `none` when the type
assertion to the `Error` interface fails. -/
def GoErr.statusField : GoErr → Option Int
  | .basic _ => none
  | .statusErr s _ _ => some s

/-- The `IsResponseError()` field of a classified error, `none` when the
type assertion to the `Error` interface fails. -/
def GoErr.exposeField : GoErr → Option Bool
  | .basic _ => none
  | .statusErr _ _ b => some b

/-- Constructor `NewError(status, err, isResponseError...)`: the variadic exposure flag
is modelled as a list; the constructor stores
`len(isResponseError) > 0 && isResponseError[0]`. -/
def NewError (status : Int) (err : GoErr) (isResponseError : List Bool) : GoErr :=
  .statusErr status err (match isResponseError with | [] => false | b :: _ => b)

/-- The response under construction: headers, every `WriteHeader` call in
order, and the accumulated body bytes. -/
structure Response where
  headers : List (String × String)
  statusWrites : List Int
  body : String
deriving DecidableEq

/-- Go `http.Header.Set`: replace any existing values for the key. -/
def Response.setHeader (r : Response) (name value : String) : Response :=
  { r with headers := r.headers.filter (fun p => !(p.1 == name)) ++ [(name, value)] }

/-- Go `http.Header.Get`: first value stored for the key. -/
def Response.getHeader (r : Response) (name : String) : Option String :=
  (r.headers.filter (fun p => p.1 == name)).head?.map (fun p => p.2)

/-- The status the transport actually emits: `net/http` honours only the
first `WriteHeader` call; a body write without any `WriteHeader` implies
status 200; nothing written leaves the status undetermined (0). -/
def wireStatus (r : Response) : Int :=
  match r.statusWrites with
  | s :: _ => s
  | [] => if r.body.isEmpty then 0 else 200

/-- Structured log records emitted via `slog`. -/
inductive LogEntry where
  | errorLog (msg : String) (status : Int)
  | panicLog (v : String)
  | accessLog (method scheme host uri proto remote : String) (status : Int)
deriving DecidableEq

/-- Whether a log record is Logger's per-request access record. -/
def LogEntry.isAccess : LogEntry → Bool
  | .accessLog .. => true
  | _ => false

/-- The explicit mutable state of one request. -/
structure World where
  resp : Response
  cells : List Int
  logs : List LogEntry
  events : List String
deriving DecidableEq

/-- An incoming request (fields the package reads). -/
structure Request where
  method : String
  path : String
  host : String
  requestURI : String
  proto : String
  remoteAddr : String
  tls : Bool
deriving DecidableEq

/-- Scheme inference in Logger: `https` when the connection is TLS. -/
def Request.scheme (r : Request) : String :=
  if r.tls then "https" else "http"

/-- A reference to an `http.ResponseWriter`: the real transport writer, or
the `responseWriter` decorator wrapping an inner writer with a pointer to a
captured-status cell (an index into `World.cells`). -/
inductive Writer where
  | base
  | observer (inner : Writer) (cell : Nat)
deriving DecidableEq

/-- Method `WriteHeader(status)`: the decorator records the status into its cell
and forwards; the base writer appends to the response's status writes. -/
def Writer.writeHeader : Writer → Int → World → World
  | .base, s, st =>
      { st with resp := { st.resp with statusWrites := st.resp.statusWrites ++ [s] } }
  | .observer inner c, s, st =>
      Writer.writeHeader inner s { st with cells := st.cells.set c s }

/-- Method `Write(b)`: the decorator is a pure pass-through; the base writer
appends to the body. -/
def Writer.write : Writer → String → World → World
  | .base, b, st =>
      { st with resp := { st.resp with body := st.resp.body ++ b } }
  | .observer inner _, b, st => Writer.write inner b st

/-- Method `Header().Set(name, value)`: the decorator's `Header()` is a pure
pass-through to the underlying writer's header map. -/
def Writer.setHeader : Writer → String → String → World → World
  | .base, n, v, st => { st with resp := st.resp.setHeader n v }
  | .observer inner _, n, v, st => Writer.setHeader inner n v st

/-- Outcome of running a handler: normal completion, or a propagating
panic carrying the state at the point of the panic. -/
inductive HOut where
  | norm (st : World)
  | panicked (st : World) (v : String)
deriving DecidableEq

/-- The state carried by either outcome. -/
def HOut.world : HOut → World
  | .norm st => st
  | .panicked st _ => st

/-- The panic value, when the outcome is a panic. -/
def HOut.panicVal : HOut → Option String
  | .norm _ => none
  | .panicked _ v => some v

/-- Go `http.Handler`. -/
def Handler := Writer → Request → World → HOut

/-- Go `type Middleware func(http.Handler) http.Handler`. -/
def Middleware := Handler → Handler

/-- Go `type ErrorHandler func(http.ResponseWriter, *http.Request, error)`. -/
def ErrorHandler := Writer → Request → GoErr → World → World

/-- Outcome of a fallible route: return with an optional error, or panic. -/
inductive RouteOut where
  | ret (st : World) (err : Option GoErr)
  | panicked (st : World) (v : String)
deriving DecidableEq

/-- Go `type Route func(http.ResponseWriter, *http.Request) error`. -/
def Route := Writer → Request → World → RouteOut

/-- Helper `Respond(w, status, payload)`: write the status line, then the bytes. -/
def Respond (w : Writer) (status : Int) (payload : String) (st : World) : World :=
  Writer.write w payload (Writer.writeHeader w status st)

/-- Helper `RespondJSON(w, status, payload)`: marshal; on failure return the
error without touching the writer; otherwise set `Content-Type`, then
`Respond`, returning nil. -/
def RespondJSON (w : Writer) (status : Int) (payload : Payload) (st : World) :
    World × Option GoErr :=
  match jsonMarshal payload with
  | none => (st, some (.basic "json: unsupported value"))
  | some body =>
      let st := Writer.setHeader w "Content-Type" "application/json" st
      (Respond w status body st, none)

/-- The source `defaultErrorHandler`: status 500 and a generic message unless the
error satisfies the `Error` interface, in which case the status is the
error's and the message is exposed only when `IsResponseError()`; logs,
then writes the JSON error body (the `RespondJSON` return is discarded). -/
def defaultErrorHandler : ErrorHandler := fun w _req err st =>
  let status : Int := match err with
    | .statusErr s _ _ => s
    | .basic _ => 500
  let resErr : String := match err with
    | .statusErr _ e true => GoErr.errMsg e
    | _ => "internal server error"
  let st := { st with logs := st.logs ++ [.errorLog (GoErr.errMsg err) status] }
  (RespondJSON w status (.strMap [("error", resErr)]) st).1

/-- Adapter `Route.ServeHTTP`: run the route; on a non-nil error invoke the active
error-render policy (the package-level `DefaultErrorHandler` variable,
passed here explicitly); a panic propagates. -/
def Route.ServeHTTP (policy : ErrorHandler) (r : Route) : Handler := fun w req st =>
  match r w req st with
  | .ret st none => .norm st
  | .ret st (some e) => .norm (policy w req e st)
  | .panicked st v => .panicked st v

/-- The middleware-composition loop
`for i := len(mw)-1; i >= 0; i-- { h = mw[i](h) }`: the first-registered
middleware ends up outermost. -/
def chain : List Middleware → Handler → Handler
  | [], h => h
  | m :: ms, h => m (chain ms h)

/-- The external multiplexer's miss behaviour (boundary, out of scope). -/
def notFound : Handler := fun w _req st =>
  .norm (Writer.write w "404 page not found\n" (Writer.writeHeader w 404 st))

/-- Go `http.ServeMux`, simplified to exact `"METHOD pattern"` keys: pattern
syntax is the external multiplexer's concern. -/
structure ServeMux where
  entries : List (String × Handler)

/-- Dispatch: look up the request's `"METHOD path"` key. -/
def ServeMux.dispatch (m : ServeMux) : Handler := fun w req st =>
  match m.entries.lookup (req.method ++ " " ++ req.path) with
  | some h => h w req st
  | none => notFound w req st

/-- The router: the multiplexer plus the global middleware list. -/
structure Router where
  mux : ServeMux
  mw : List Middleware

/-- Constructor `New()`. -/
def Router.New : Router := ⟨⟨[]⟩, []⟩

/-- Method `Router.route`: wrap the route's adapter in the per-route middleware
and register under `method + " " + pattern`. -/
def Router.route (r : Router) (policy : ErrorHandler) (method pattern : String)
    (route : Route) (middleware : List Middleware) : Router :=
  { r with mux := ⟨r.mux.entries ++
      [(method ++ " " ++ pattern, chain middleware (Route.ServeHTTP policy route))]⟩ }

/-- Method `Router.Get`. -/
def Router.Get (r : Router) (policy : ErrorHandler) (pattern : String)
    (route : Route) (middleware : List Middleware) : Router :=
  r.route policy "GET" pattern route middleware

/-- Method `Router.Use`: append to the global middleware list. -/
def Router.Use (r : Router) (middleware : List Middleware) : Router :=
  { r with mw := r.mw ++ middleware }

/-- Method `Router.ServeHTTP`: wrap the multiplexer in the global middleware. -/
def Router.ServeHTTP (r : Router) : Handler :=
  chain r.mw (ServeMux.dispatch r.mux)

/-- Logger's access record for one request. -/
def accessEntry (req : Request) (status : Int) : LogEntry :=
  .accessLog req.method req.scheme req.host req.requestURI req.proto req.remoteAddr status

/-- Logger's deferred action: emit one access record carrying the status
captured in cell `c`. -/
def logAccess (req : Request) (c : Nat) (st : World) : World :=
  { st with logs := st.logs ++ [accessEntry req (st.cells.getD c 0)] }

/-- Middleware `LoggerMiddleware`: allocate a captured-status cell initialised to 0,
wrap the writer in the decorator, run downstream, and emit exactly one
access record with the captured status — also when downstream panics
(deferred execution), in which case the panic keeps propagating. -/
def LoggerMiddleware : Middleware := fun next => fun w req st =>
  let cell := st.cells.length
  let st1 := { st with cells := st.cells ++ [0] }
  match next (.observer w cell) req st1 with
  | .norm st2 => .norm (logAccess req cell st2)
  | .panicked st2 v => .panicked (logAccess req cell st2) v

/-- Recover's actions before rendering: set `Connection: close` through
the writer it holds, then log the panic with its stack trace. -/
def panicState (w : Writer) (v : String) (st : World) : World :=
  { Writer.setHeader w "Connection" "close" st with
      logs := (Writer.setHeader w "Connection" "close" st).logs ++ [.panicLog v] }

/-- Middleware `RecoverMiddleware`: run downstream; on a panic, set
`Connection: close`, log the panic, and render a generic
"recovering from panic" error through the active policy; never re-raise. -/
def RecoverMiddleware (policy : ErrorHandler) : Middleware := fun next => fun w req st =>
  match next w req st with
  | .norm st => .norm st
  | .panicked st v =>
      .norm (policy w req (.basic "recovering from panic") (panicState w v st))

/-- A deep-embedded straight-line handler body: everything a Go handler
can do through the `http.ResponseWriter` capability, plus panicking. -/
inductive Prog where
  | done
  | panicWith (v : String)
  | writeHeader (s : Int) (k : Prog)
  | write (b : String) (k : Prog)
  | setHeader (n v : String) (k : Prog)
deriving DecidableEq

/-- Run a handler body against a writer. -/
def runProg : Prog → Writer → World → HOut
  | .done, _, st => .norm st
  | .panicWith v, _, st => .panicked st v
  | .writeHeader s k, w, st => runProg k w (Writer.writeHeader w s st)
  | .write b k, w, st => runProg k w (Writer.write w b st)
  | .setHeader n v k, w, st => runProg k w (Writer.setHeader w n v st)

/-- The statuses a handler body passes to `WriteHeader`, in order. -/
def progWrites : Prog → List Int
  | .done => []
  | .panicWith _ => []
  | .writeHeader s k => s :: progWrites k
  | .write _ k => progWrites k
  | .setHeader _ _ k => progWrites k

/-- The panic value of a handler body, if it panics. -/
def progPanicVal : Prog → Option String
  | .done => none
  | .panicWith v => some v
  | .writeHeader _ k => progPanicVal k
  | .write _ k => progPanicVal k
  | .setHeader _ _ k => progPanicVal k

/-- A handler body as a `Handler`. -/
def progHandler (p : Prog) : Handler := fun w _req st => runProg p w st

/-- A handler body as a fallible `Route` that returns nil on completion. -/
def progRoute (p : Prog) : Route := fun w _req st =>
  match runProg p w st with
  | .norm st => .ret st none
  | .panicked st v => .panicked st v

/-- Last element of a status-write list, with a default. -/
def lastD : List Int → Int → Int
  | [], d => d
  | s :: l, _ => lastD l s

/-- Push one trace event. -/
def pushEvent (e : String) (st : World) : World :=
  { st with events := st.events ++ [e] }

/-- Push several trace events. -/
def pushEvents (es : List String) (st : World) : World :=
  { st with events := st.events ++ es }

/-- The entry event of a named tracing middleware. -/
def inTag (n : String) : String := n ++ ":in"

/-- The exit event of a named tracing middleware. -/
def outTag (n : String) : String := n ++ ":out"

/-- A tracing middleware: records entry, delegates, records exit (skipped
when downstream panics, as in Go without defer). -/
def traceMW (name : String) : Middleware := fun next => fun w req st =>
  match next w req (pushEvent (inTag name) st) with
  | .norm st2 => .norm (pushEvent (outTag name) st2)
  | .panicked st2 v => .panicked st2 v

/-- A terminal route recording that it ran, returning nil. -/
def traceRoute : Route := fun _w _req st => .ret (pushEvent "handler" st) none

/-- The router built for the Logger/Recover pipeline analysis: Logger
registered first (outermost), then Recover, around one route running a
handler body. -/
def loggerRecoverRouter (p : Prog) (method pattern : String) : Router :=
  ((Router.New).Use [LoggerMiddleware, RecoverMiddleware defaultErrorHandler]).route
    defaultErrorHandler method pattern (progRoute p) []

/-- A sample request used to instantiate universally quantified theorems. -/
def sampleReq : Request :=
  ⟨"GET", "/test", "example.com", "/test", "HTTP/1.1", "127.0.0.1:1234", false⟩

/-- The fresh per-request state. -/
def emptyWorld : World := ⟨⟨[], [], ""⟩, [], [], []⟩

/-- A route that always fails with an unclassified error. -/
def constErrRoute : Route := fun _w _req st => .ret st (some (.basic "route failure"))

/-- A route that succeeds without acting. -/
def okRoute : Route := fun _w _req st => .ret st none

/-- A request state holding one captured-status cell at its sentinel 0. -/
def oneCellWorld : World := ⟨⟨[], [], ""⟩, [0], [], []⟩

end Httpd

namespace Httpd

/-! ### Helper lemmas about the writer operations -/

theorem writer_writeHeader_logs (w : Writer) (s : Int) (st : World) :
    (Writer.writeHeader w s st).logs = st.logs := by
  induction w generalizing st with
  | base => rfl
  | observer inner c ih => simp [Writer.writeHeader, ih]

theorem writer_write_logs (w : Writer) (b : String) (st : World) :
    (Writer.write w b st).logs = st.logs := by
  induction w generalizing st with
  | base => rfl
  | observer inner c ih => simp [Writer.write, ih]

theorem writer_setHeader_logs (w : Writer) (n v : String) (st : World) :
    (Writer.setHeader w n v st).logs = st.logs := by
  induction w generalizing st with
  | base => rfl
  | observer inner c ih => simp [Writer.setHeader, ih]

theorem writer_writeHeader_statusWrites (w : Writer) (s : Int) (st : World) :
    (Writer.writeHeader w s st).resp.statusWrites = st.resp.statusWrites ++ [s] := by
  induction w generalizing st with
  | base => rfl
  | observer inner c ih => simp [Writer.writeHeader, ih]

theorem writer_write_statusWrites (w : Writer) (b : String) (st : World) :
    (Writer.write w b st).resp.statusWrites = st.resp.statusWrites := by
  induction w generalizing st with
  | base => rfl
  | observer inner c ih => simp [Writer.write, ih]

theorem writer_setHeader_statusWrites (w : Writer) (n v : String) (st : World) :
    (Writer.setHeader w n v st).resp.statusWrites = st.resp.statusWrites := by
  induction w generalizing st with
  | base => rfl
  | observer inner c ih => simp [Writer.setHeader, ih]

theorem writer_write_cells (w : Writer) (b : String) (st : World) :
    (Writer.write w b st).cells = st.cells := by
  induction w generalizing st with
  | base => rfl
  | observer inner c ih => simp [Writer.write, ih]

theorem writer_setHeader_cells (w : Writer) (n v : String) (st : World) :
    (Writer.setHeader w n v st).cells = st.cells := by
  induction w generalizing st with
  | base => rfl
  | observer inner c ih => simp [Writer.setHeader, ih]

theorem writer_writeHeader_cells_len (w : Writer) (s : Int) (st : World) :
    (Writer.writeHeader w s st).cells.length = st.cells.length := by
  induction w generalizing st with
  | base => rfl
  | observer inner c ih => simp [Writer.writeHeader, ih]

/-! ### Helper lemmas about lists -/

theorem getD_set_self (l : List Int) (c : Nat) (a d : Int) (h : c < l.length) :
    (l.set c a).getD c d = a := by
  induction l generalizing c with
  | nil => simp at h
  | cons x xs ih =>
      cases c with
      | zero => rfl
      | succ c => exact ih c (by simpa using h)

theorem getD_append_len (l : List Int) (a d : Int) :
    (l ++ [a]).getD l.length d = a := by
  induction l with
  | nil => rfl
  | cons x xs ih => simp [ih]

/-! ### Helper lemmas about headers and JSON bodies -/

theorem marshal_single (k v : String) :
    marshalStrMap [(k, v)] = "\x7b" ++ jsonQuote k ++ ":" ++ jsonQuote v ++ "\x7d" := rfl

theorem jsonEscape_generic : jsonEscape "internal server error" = "internal server error" := rfl

theorem jsonEscape_error_key : jsonEscape "error" = "error" := rfl

theorem filter_key_after_set (l : List (String × String)) (n m v : String)
    (h : (n == m) = false) :
    List.filter (fun p => p.1 == n) (List.filter (fun p => !(p.1 == m)) l ++ [(m, v)])
      = List.filter (fun p => p.1 == n) l := by
  have h' : (m == n) = false := by
    rw [beq_eq_false_iff_ne] at h ⊢
    exact fun e => h e.symm
  induction l with
  | nil => simp [List.filter, h']
  | cons p l ih =>
      by_cases h1 : (p.1 == m) = true
      · have hpn : (p.1 == n) = false := by
          rw [beq_iff_eq] at h1
          rw [h1]
          exact h'
        simp [List.filter, h1, hpn, ih]
      · simp only [Bool.not_eq_true] at h1
        simp [List.filter, h1, ih]

theorem getHeader_setHeader_self (r : Response) (n v : String) :
    (r.setHeader n v).getHeader n = some v := by
  simp [Response.getHeader, Response.setHeader, List.filter_append, List.filter_filter]

theorem getHeader_setHeader_other (r : Response) (n m v : String) (h : (n == m) = false) :
    (r.setHeader m v).getHeader n = r.getHeader n := by
  simp only [Response.getHeader, Response.setHeader]
  rw [filter_key_after_set _ _ _ _ h]

theorem setHeader_keeps_statusWrites (r : Response) (n v : String) :
    (Response.setHeader r n v).statusWrites = r.statusWrites := rfl

theorem setHeader_keeps_body (r : Response) (n v : String) :
    (Response.setHeader r n v).body = r.body := rfl

theorem marshal_error_body (x : String) :
    marshalStrMap [("error", x)] = "\x7b\"error\":\"" ++ jsonEscape x ++ "\"\x7d" := by
  simp [marshal_single, jsonQuote, jsonEscape_error_key, String.append_assoc]
  rw [← String.append_assoc]
  simp

theorem marshal_generic_body :
    marshalStrMap [("error", "internal server error")]
      = "\x7b\"error\":\"internal server error\"\x7d" := rfl

/-! ### Helper lemmas about running handler bodies -/

theorem runProg_logs (p : Prog) (w : Writer) (st : World) :
    (runProg p w st).world.logs = st.logs := by
  induction p generalizing st with
  | done => rfl
  | panicWith v => rfl
  | writeHeader s k ih => simp [runProg, ih, writer_writeHeader_logs]
  | write b k ih => simp [runProg, ih, writer_write_logs]
  | setHeader n v k ih => simp [runProg, ih, writer_setHeader_logs]

theorem runProg_statusWrites (p : Prog) (w : Writer) (st : World) :
    (runProg p w st).world.resp.statusWrites = st.resp.statusWrites ++ progWrites p := by
  induction p generalizing st with
  | done => simp [runProg, progWrites, HOut.world]
  | panicWith v => simp [runProg, progWrites, HOut.world]
  | writeHeader s k ih =>
      simp [runProg, progWrites, ih, writer_writeHeader_statusWrites]
  | write b k ih => simp [runProg, progWrites, ih, writer_write_statusWrites]
  | setHeader n v k ih => simp [runProg, progWrites, ih, writer_setHeader_statusWrites]

theorem runProg_panicVal (p : Prog) (w : Writer) (st : World) :
    (runProg p w st).panicVal = progPanicVal p := by
  induction p generalizing st with
  | done => rfl
  | panicWith v => rfl
  | writeHeader s k ih => simp [runProg, progPanicVal, ih]
  | write b k ih => simp [runProg, progPanicVal, ih]
  | setHeader n v k ih => simp [runProg, progPanicVal, ih]

theorem runProg_cells_len (p : Prog) (w : Writer) (st : World) :
    (runProg p w st).world.cells.length = st.cells.length := by
  induction p generalizing st with
  | done => rfl
  | panicWith v => rfl
  | writeHeader s k ih => simp [runProg, ih, writer_writeHeader_cells_len]
  | write b k ih => simp [runProg, ih, writer_write_cells]
  | setHeader n v k ih => simp [runProg, ih, writer_setHeader_cells]

theorem runProg_cells_getD (p : Prog) (c : Nat) (st : World) (d : Int)
    (h : c < st.cells.length) :
    (runProg p (.observer .base c) st).world.cells.getD c d
      = lastD (progWrites p) (st.cells.getD c d) := by
  induction p generalizing st with
  | done => rfl
  | panicWith v => rfl
  | writeHeader s k ih =>
      have hlen : c < (Writer.writeHeader (.observer .base c) s st).cells.length := by
        simpa [writer_writeHeader_cells_len] using h
      have hrec := ih (Writer.writeHeader (.observer .base c) s st) hlen
      have hc : (Writer.writeHeader (.observer .base c) s st).cells = st.cells.set c s := rfl
      simp only [runProg, progWrites, lastD]
      rw [hrec, hc, getD_set_self _ _ _ _ h]
  | write b k ih =>
      have hlen : c < (Writer.write (.observer .base c) b st).cells.length := by
        simpa [writer_write_cells] using h
      have := ih (Writer.write (.observer .base c) b st) hlen
      simp only [runProg, progWrites] at this ⊢
      rw [this, writer_write_cells]
  | setHeader n v k ih =>
      have hlen : c < (Writer.setHeader (.observer .base c) n v st).cells.length := by
        simpa [writer_setHeader_cells] using h
      have := ih (Writer.setHeader (.observer .base c) n v st) hlen
      simp only [runProg, progWrites] at this ⊢
      rw [this, writer_setHeader_cells]

theorem runProg_cells_nowrites (p : Prog) (w : Writer) (st : World)
    (h : progWrites p = []) :
    (runProg p w st).world.cells = st.cells := by
  induction p generalizing st with
  | done => rfl
  | panicWith v => rfl
  | writeHeader s k ih => simp [progWrites] at h
  | write b k ih =>
      simp only [progWrites] at h
      simp [runProg, ih _ h, writer_write_cells]
  | setHeader n v k ih =>
      simp only [progWrites] at h
      simp [runProg, ih _ h, writer_setHeader_cells]

/-! ### Helper lemmas for the Logger / Recover pipeline -/

theorem hout_norm_of_panicVal_none (o : HOut) (h : o.panicVal = none) :
    o = .norm o.world := by
  cases o with
  | norm st => rfl
  | panicked st v => simp [HOut.panicVal] at h

theorem hout_panicked_of_panicVal_some (o : HOut) (v : String) (h : o.panicVal = some v) :
    o = .panicked o.world v := by
  cases o with
  | norm st => simp [HOut.panicVal] at h
  | panicked st u => simp [HOut.panicVal] at h; subst h; rfl

theorem render_panic_world (c : Nat) (req : Request) (st : World) :
    defaultErrorHandler (.observer .base c) req (.basic "recovering from panic") st
      = { st with
          resp := { st.resp.setHeader "Content-Type" "application/json" with
              statusWrites := st.resp.statusWrites ++ [500],
              body := st.resp.body ++ "\x7b\"error\":\"internal server error\"\x7d" },
          cells := st.cells.set c 500,
          logs := st.logs ++ [.errorLog "recovering from panic" 500] } := rfl

theorem panicState_observer_base (c : Nat) (v : String) (st : World) :
    panicState (.observer .base c) v st
      = { st with
          resp := st.resp.setHeader "Connection" "close",
          logs := st.logs ++ [.panicLog v] } := rfl

theorem routeServeHTTP_progRoute (policy : ErrorHandler) (p : Prog) (w : Writer)
    (req : Request) (st : World) :
    Route.ServeHTTP policy (progRoute p) w req st = runProg p w st := by
  cases h : runProg p w st <;> simp [Route.ServeHTTP, progRoute, h]

theorem dispatch_progRoute (p : Prog) (req : Request) (w : Writer) (st : World) :
    ServeMux.dispatch (loggerRecoverRouter p req.method req.path).mux w req st
      = runProg p w st := by
  simp only [loggerRecoverRouter, Router.route, Router.Use, Router.New, ServeMux.dispatch,
    List.nil_append, List.lookup, beq_self_eq_true, chain]
  exact routeServeHTTP_progRoute defaultErrorHandler p w req st

theorem logger_recover_norm (next : Handler) (req : Request) (st0 W : World)
    (hnext : next (.observer .base st0.cells.length) req { st0 with cells := st0.cells ++ [0] }
      = .norm W) :
    LoggerMiddleware (RecoverMiddleware defaultErrorHandler next) .base req st0
      = .norm (logAccess req st0.cells.length W) := by
  simp only [LoggerMiddleware, RecoverMiddleware]
  rw [hnext]

theorem logger_recover_panic (next : Handler) (req : Request) (st0 W : World) (v : String)
    (hnext : next (.observer .base st0.cells.length) req { st0 with cells := st0.cells ++ [0] }
      = .panicked W v) :
    LoggerMiddleware (RecoverMiddleware defaultErrorHandler next) .base req st0
      = .norm (logAccess req st0.cells.length
          (defaultErrorHandler (.observer .base st0.cells.length) req
            (.basic "recovering from panic")
            (panicState (.observer .base st0.cells.length) v W))) := by
  simp only [LoggerMiddleware, RecoverMiddleware]
  rw [hnext]

theorem pipeline_core (p : Prog) (next : Handler) (req : Request) (st0 : World)
    (hnext : ∀ (w : Writer) (st : World), next w req st = runProg p w st) :
    ∃ stf : World,
      LoggerMiddleware (RecoverMiddleware defaultErrorHandler next) .base req st0 = .norm stf
      ∧ stf.logs = st0.logs ++ (match progPanicVal p with
          | none => [accessEntry req (lastD (progWrites p) 0)]
          | some v => [.panicLog v, .errorLog "recovering from panic" 500,
              accessEntry req 500])
      ∧ stf.resp.statusWrites = st0.resp.statusWrites ++ progWrites p
          ++ (match progPanicVal p with | none => [] | some _ => [500]) := by
  have hcell : st0.cells.length < (st0.cells ++ [0]).length := by simp
  have hWlogs := runProg_logs p (.observer .base st0.cells.length)
    { st0 with cells := st0.cells ++ [0] }
  have hWsw := runProg_statusWrites p (.observer .base st0.cells.length)
    { st0 with cells := st0.cells ++ [0] }
  have hWlen := runProg_cells_len p (.observer .base st0.cells.length)
    { st0 with cells := st0.cells ++ [0] }
  cases hpv : progPanicVal p with
  | none =>
      have hR : runProg p (.observer .base st0.cells.length)
            { st0 with cells := st0.cells ++ [0] }
          = .norm (runProg p (.observer .base st0.cells.length)
              { st0 with cells := st0.cells ++ [0] }).world :=
        hout_norm_of_panicVal_none _ (by rw [runProg_panicVal]; exact hpv)
      refine ⟨_, logger_recover_norm next req st0 _ (by rw [hnext]; exact hR), ?_, ?_⟩
      · have hgd : (runProg p (.observer .base st0.cells.length)
              { st0 with cells := st0.cells ++ [0] }).world.cells.getD st0.cells.length 0
            = lastD (progWrites p) 0 := by
          rw [runProg_cells_getD p st0.cells.length _ 0 hcell]
          rw [show ({ st0 with cells := st0.cells ++ [0] } : World).cells.getD
              st0.cells.length 0 = 0 from getD_append_len st0.cells 0 0]
        simp [logAccess, hWlogs, hgd]
        congr 1
        simpa using hgd
      · simp [logAccess, hWsw]
  | some v =>
      have hR : runProg p (.observer .base st0.cells.length)
            { st0 with cells := st0.cells ++ [0] }
          = .panicked (runProg p (.observer .base st0.cells.length)
              { st0 with cells := st0.cells ++ [0] }).world v :=
        hout_panicked_of_panicVal_some _ _ (by rw [runProg_panicVal]; exact hpv)
      have hgd : ((runProg p (.observer .base st0.cells.length)
            { st0 with cells := st0.cells ++ [0] }).world.cells.set st0.cells.length
              500).getD st0.cells.length 0 = 500 :=
        getD_set_self _ _ _ _ (by rw [hWlen]; simp)
      refine ⟨_, logger_recover_panic next req st0 _ v (by rw [hnext]; exact hR), ?_, ?_⟩
      · rw [panicState_observer_base, render_panic_world]
        simp [logAccess, hWlogs, hgd]
        congr 1
        simpa using hgd
      · rw [panicState_observer_base, render_panic_world]
        simp [logAccess, setHeader_keeps_statusWrites, hWsw, List.append_assoc]

/-! ### Middleware-chain trace lemma -/

theorem chain_traceMW (req : Request) (names : List String) (h : Handler) (E : List String)
    (hh : ∀ (w : Writer) (st : World), h w req st = .norm (pushEvents E st)) :
    ∀ (w : Writer) (st : World),
      chain (names.map traceMW) h w req st
        = .norm (pushEvents (names.map inTag ++ E ++ (names.map outTag).reverse) st) := by
  induction names with
  | nil =>
      intro w st
      simpa [chain, pushEvents] using hh w st
  | cons n ns ih =>
      intro w st
      simp only [List.map_cons, chain, traceMW]
      rw [ih]
      simp [pushEvent, pushEvents, List.append_assoc]

/-! ### Claim theorems -/

/-- C1: the default error-render policy gives an unclassified error status
500 and body `{"error":"internal server error"}`; a classified error with
status `S` gets status `S`, with the error's own message in the body
exactly when `exposeMessage` is true and the generic text otherwise,
regardless of the message and for any status. -/
theorem c1_defaultErrorHandler_render (req : Request) (st : World) (m : String)
    (S : Int) (inner : GoErr) :
    ((defaultErrorHandler .base req (.basic m) st).resp.statusWrites
        = st.resp.statusWrites ++ [500]
      ∧ (defaultErrorHandler .base req (.basic m) st).resp.body
        = st.resp.body ++ "\x7b\"error\":\"internal server error\"\x7d")
    ∧ ((defaultErrorHandler .base req (.statusErr S inner true) st).resp.statusWrites
        = st.resp.statusWrites ++ [S]
      ∧ (defaultErrorHandler .base req (.statusErr S inner true) st).resp.body
        = st.resp.body ++ ("\x7b\"error\":\"" ++ jsonEscape inner.errMsg ++ "\"\x7d"))
    ∧ ((defaultErrorHandler .base req (.statusErr S inner false) st).resp.statusWrites
        = st.resp.statusWrites ++ [S]
      ∧ (defaultErrorHandler .base req (.statusErr S inner false) st).resp.body
        = st.resp.body ++ "\x7b\"error\":\"internal server error\"\x7d") := by
  refine ⟨⟨?_, ?_⟩, ⟨?_, ?_⟩, ⟨?_, ?_⟩⟩ <;>
    simp [defaultErrorHandler, RespondJSON, jsonMarshal, Respond, Writer.setHeader,
      Writer.writeHeader, Writer.write, Response.setHeader, marshal_error_body,
      marshal_generic_body, jsonEscape_generic]

/-- C2: dispatch wraps the multiplexer in the global middleware with the
first-registered middleware outermost, the registered entry is the
terminal handler wrapped in the per-route middleware (innermost), and on
a matched request executing tracing middleware `gs` around per-route
tracing middleware `ps` enters in registration order
`gs, ps, handler` and leaves in exactly the reverse order. -/
theorem c2_middleware_order :
    (∀ (gs ps : List Middleware) (policy : ErrorHandler) (method pat : String) (H : Route)
        (w : Writer) (req : Request) (st : World),
      req.method = method → req.path = pat →
      (((Router.New).Use gs).route policy method pat H ps).ServeHTTP
          = chain gs
              (ServeMux.dispatch (((Router.New).Use gs).route policy method pat H ps).mux)
        ∧ ServeMux.dispatch (((Router.New).Use gs).route policy method pat H ps).mux w req st
          = chain ps (Route.ServeHTTP policy H) w req st)
    ∧ (∀ (gs ps : List String) (policy : ErrorHandler) (method pat : String)
        (req : Request) (w : Writer) (st : World),
      req.method = method → req.path = pat →
      (((Router.New).Use (gs.map traceMW)).route policy method pat traceRoute
          (ps.map traceMW)).ServeHTTP w req st
        = .norm (pushEvents (gs.map inTag ++ ps.map inTag ++ ["handler"]
            ++ (ps.map outTag).reverse ++ (gs.map outTag).reverse) st)) := by
  constructor
  · intro gs ps policy method pat H w req st h1 h2
    subst h1; subst h2
    refine ⟨rfl, ?_⟩
    simp [ServeMux.dispatch, Router.route, Router.Use, Router.New, List.lookup]
  · intro gs ps policy method pat req w st h1 h2
    subst h1; subst h2
    have hterm : ∀ (w : Writer) (st : World),
        Route.ServeHTTP policy traceRoute w req st = .norm (pushEvents ["handler"] st) :=
      fun _ _ => rfl
    have hinner := chain_traceMW req ps (Route.ServeHTTP policy traceRoute) ["handler"] hterm
    have hdisp : ∀ (w : Writer) (st : World),
        ServeMux.dispatch (((Router.New).Use (gs.map traceMW)).route policy req.method
            req.path traceRoute (ps.map traceMW)).mux w req st
          = .norm (pushEvents (ps.map inTag ++ ["handler"] ++ (ps.map outTag).reverse) st) := by
      intro w st
      simp only [ServeMux.dispatch, Router.route, Router.Use, Router.New, List.nil_append,
        List.lookup, beq_self_eq_true]
      exact hinner w st
    have houter := chain_traceMW req gs _ _ hdisp
    have : (((Router.New).Use (gs.map traceMW)).route policy req.method req.path traceRoute
        (ps.map traceMW)).ServeHTTP w req st
        = chain (gs.map traceMW) (ServeMux.dispatch (((Router.New).Use (gs.map traceMW)).route
            policy req.method req.path traceRoute (ps.map traceMW)).mux) w req st := rfl
    rw [this, houter w st]
    simp [pushEvents, List.append_assoc]

/-- Witness for C2: global tracing middleware `[A, B]` and per-route `[C]`
produce the entry order `A, B, C, handler` and the reverse exit order. -/
theorem c2_middleware_order_witness :
    sampleReq.method = "GET" ∧ sampleReq.path = "/test"
    ∧ (((Router.New).Use (["A", "B"].map traceMW)).route defaultErrorHandler "GET" "/test"
        traceRoute (["C"].map traceMW)).ServeHTTP .base sampleReq emptyWorld
      = .norm (pushEvents
          ["A:in", "B:in", "C:in", "handler", "C:out", "B:out", "A:out"] emptyWorld) :=
  ⟨rfl, rfl, c2_middleware_order.2 ["A", "B"] ["C"] defaultErrorHandler "GET" "/test"
    sampleReq .base emptyWorld rfl rfl⟩

/-- C3: the route adapter invokes the active render policy exactly once
when the route returns a non-nil error, and performs no additional action
when the route returns nil. -/
theorem c3_adapter_renders_iff_error (policy : ErrorHandler) (r : Route) (w : Writer)
    (req : Request) (st st' : World) :
    (r w req st = .ret st' none → Route.ServeHTTP policy r w req st = .norm st')
    ∧ (∀ e : GoErr, r w req st = .ret st' (some e) →
        Route.ServeHTTP policy r w req st = .norm (policy w req e st')) := by
  constructor
  · intro h
    simp [Route.ServeHTTP, h]
  · intro e h
    simp [Route.ServeHTTP, h]

/-- Witness for C3 at a concrete erroring route and a concrete clean route. -/
theorem c3_adapter_renders_iff_error_witness :
    (constErrRoute .base sampleReq emptyWorld
        = .ret emptyWorld (some (.basic "route failure"))
      ∧ Route.ServeHTTP defaultErrorHandler constErrRoute .base sampleReq emptyWorld
        = .norm (defaultErrorHandler .base sampleReq (.basic "route failure") emptyWorld))
    ∧ (okRoute .base sampleReq emptyWorld = .ret emptyWorld none
      ∧ Route.ServeHTTP defaultErrorHandler okRoute .base sampleReq emptyWorld
        = .norm emptyWorld) :=
  ⟨⟨rfl, (c3_adapter_renders_iff_error defaultErrorHandler constErrRoute .base sampleReq
      emptyWorld emptyWorld).2 (.basic "route failure") rfl⟩,
   ⟨rfl, (c3_adapter_renders_iff_error defaultErrorHandler okRoute .base sampleReq
      emptyWorld emptyWorld).1 rfl⟩⟩

/-- C4: when the downstream chain panics, Recover returns normally for
every render policy (no re-raise), invoking the policy exactly once with
the generic "recovering from panic" error after setting
`Connection: close` and logging; with the default policy the response
carries status 500, the `Connection: close` header, and the generic
error body (the message is not exposed). -/
theorem c4_recover_no_reraise (next : Handler) (req : Request) (st st' : World) (v : String)
    (hp : next .base req st = .panicked st' v) :
    (∀ policy : ErrorHandler,
        RecoverMiddleware policy next .base req st
          = .norm (policy .base req (.basic "recovering from panic")
              { Writer.setHeader .base "Connection" "close" st' with
                  logs := (Writer.setHeader .base "Connection" "close" st').logs
                    ++ [.panicLog v] }))
    ∧ (RecoverMiddleware defaultErrorHandler next .base req st).panicVal = none
    ∧ (RecoverMiddleware defaultErrorHandler next .base req st).world.resp.statusWrites
        = st'.resp.statusWrites ++ [500]
    ∧ (RecoverMiddleware defaultErrorHandler next .base req st).world.resp.getHeader
        "Connection" = some "close"
    ∧ (RecoverMiddleware defaultErrorHandler next .base req st).world.resp.body
        = st'.resp.body ++ "\x7b\"error\":\"internal server error\"\x7d" := by
  refine ⟨?_, ?_, ?_, ?_, ?_⟩
  · intro policy
    simp [RecoverMiddleware, hp, panicState]
  · simp [RecoverMiddleware, hp, HOut.panicVal]
  · simp [RecoverMiddleware, hp, defaultErrorHandler, RespondJSON, jsonMarshal, Respond,
      Writer.setHeader, Writer.writeHeader, Writer.write, HOut.world, panicState,
      setHeader_keeps_statusWrites]
  · simp only [RecoverMiddleware, hp, defaultErrorHandler, RespondJSON, jsonMarshal, Respond,
      Writer.setHeader, Writer.writeHeader, Writer.write, HOut.world, panicState]
    show ((st'.resp.setHeader "Connection" "close").setHeader "Content-Type"
        "application/json").getHeader "Connection" = some "close"
    rw [getHeader_setHeader_other _ _ _ _ (by decide)]
    exact getHeader_setHeader_self _ _ _
  · simp [RecoverMiddleware, hp, defaultErrorHandler, RespondJSON, jsonMarshal, Respond,
      Writer.setHeader, Writer.writeHeader, Writer.write, HOut.world, marshal_generic_body,
      marshal_error_body, jsonEscape_generic, setHeader_keeps_body, panicState]

/-- Witness for C4 at a concrete panicking handler. -/
theorem c4_recover_no_reraise_witness :
    progHandler (.panicWith "boom") .base sampleReq emptyWorld = .panicked emptyWorld "boom"
    ∧ (RecoverMiddleware defaultErrorHandler (progHandler (.panicWith "boom")) .base
        sampleReq emptyWorld).panicVal = none
    ∧ (RecoverMiddleware defaultErrorHandler (progHandler (.panicWith "boom")) .base
        sampleReq emptyWorld).world.resp.statusWrites = [500]
    ∧ (RecoverMiddleware defaultErrorHandler (progHandler (.panicWith "boom")) .base
        sampleReq emptyWorld).world.resp.getHeader "Connection" = some "close" :=
  have h := c4_recover_no_reraise (progHandler (.panicWith "boom")) sampleReq emptyWorld
    emptyWorld "boom" rfl
  ⟨rfl, h.2.1, h.2.2.1, h.2.2.2.1⟩

/-- C7: the response observer records the status into its captured cell
and forwards the call; byte writes and header access are pure
pass-throughs that never touch any cell; and a handler body that never
calls the status-setter leaves every cell unchanged, so a cell
initialised to the sentinel 0 stays 0. -/
theorem c7_responseWriter_observer (inner : Writer) (c : Nat) (s : Int) (b n v : String)
    (st : World) (p : Prog) :
    (Writer.writeHeader (.observer inner c) s st
        = Writer.writeHeader inner s { st with cells := st.cells.set c s })
    ∧ (Writer.write (.observer inner c) b st = Writer.write inner b st)
    ∧ (Writer.setHeader (.observer inner c) n v st = Writer.setHeader inner n v st)
    ∧ (Writer.write (.observer inner c) b st).cells = st.cells
    ∧ (Writer.setHeader (.observer inner c) n v st).cells = st.cells
    ∧ (c < st.cells.length →
        (Writer.writeHeader (.observer .base c) s st).cells.getD c 0 = s
        ∧ (Writer.writeHeader (.observer .base c) s st).resp.statusWrites
            = st.resp.statusWrites ++ [s])
    ∧ (progWrites p = [] →
        (runProg p (.observer .base c) st).world.cells = st.cells) := by
  refine ⟨rfl, rfl, rfl, writer_write_cells _ _ _, writer_setHeader_cells _ _ _ _, ?_, ?_⟩
  · intro h
    refine ⟨?_, writer_writeHeader_statusWrites _ _ _⟩
    show (st.cells.set c s).getD c 0 = s
    exact getD_set_self _ _ _ _ h
  · intro h
    exact runProg_cells_nowrites p _ st h

/-- Witness for C7: a cell at sentinel 0, one status write lands in the
cell; a body-only handler leaves the cell at 0. -/
theorem c7_responseWriter_observer_witness :
    0 < oneCellWorld.cells.length
    ∧ progWrites (.write "x" .done) = []
    ∧ (Writer.writeHeader (.observer .base 0) 204 oneCellWorld).cells.getD 0 0 = 204
    ∧ (runProg (.write "x" .done) (.observer .base 0) oneCellWorld).world.cells
        = oneCellWorld.cells :=
  have h := c7_responseWriter_observer .base 0 204 "x" "X-N" "x" oneCellWorld (.write "x" .done)
  ⟨by decide, rfl, (h.2.2.2.2.2.1 (by decide)).1, h.2.2.2.2.2.2 rfl⟩

/-- C5 counterexample: with Logger outermost and Recover inside, a route
that writes status 200 and then panics makes Logger record 500 (the
observer cell is overwritten by the Recover-triggered render), while the
status actually written to the transport is 200, since `net/http` honours
only the first `WriteHeader`; so the recorded status does not always
equal the status actually written. -/
theorem c5_logger_status_counterexample :
    ((loggerRecoverRouter (.writeHeader 200 (.panicWith "boom")) "GET" "/test").ServeHTTP
        .base sampleReq emptyWorld).world.logs.getLast? = some (accessEntry sampleReq 500)
    ∧ wireStatus ((loggerRecoverRouter (.writeHeader 200 (.panicWith "boom")) "GET"
        "/test").ServeHTTP .base sampleReq emptyWorld).world.resp = 200
    ∧ (500 : Int) ≠ 200 := by
  refine ⟨rfl, rfl, by decide⟩

/-- C5 (amended): with Logger registered before Recover, every request
yields exactly one access record; the status it records is the last
status passed to the status-setter during the request — the 500 of a
Recover-triggered render when a panic occurred — and 0 when none was
passed; when the downstream panicked before writing any status, the
recorded 500 equals the status actually written to the response. -/
theorem c5_logger_one_record_last_status (p : Prog) (method pat : String) (req : Request)
    (st0 : World) (h1 : req.method = method) (h2 : req.path = pat) :
    ∃ stf : World,
      (loggerRecoverRouter p method pat).ServeHTTP .base req st0 = .norm stf
      ∧ stf.logs = st0.logs ++ (match progPanicVal p with
          | none => [accessEntry req (lastD (progWrites p) 0)]
          | some v => [.panicLog v, .errorLog "recovering from panic" 500,
              accessEntry req 500])
      ∧ (stf.logs.drop st0.logs.length).countP LogEntry.isAccess = 1
      ∧ stf.resp.statusWrites = st0.resp.statusWrites ++ progWrites p
          ++ (match progPanicVal p with | none => [] | some _ => [500])
      ∧ (progWrites p = [] → progPanicVal p ≠ none → st0.resp.statusWrites = [] →
          wireStatus stf.resp = 500) := by
  subst h1; subst h2
  obtain ⟨stf, heq, hlogs, hsw⟩ := pipeline_core p
    (ServeMux.dispatch (loggerRecoverRouter p req.method req.path).mux) req st0
    (fun w st => dispatch_progRoute p req w st)
  refine ⟨stf, heq, hlogs, ?_, hsw, ?_⟩
  · rw [hlogs, List.drop_left]
    cases progPanicVal p <;>
      simp [List.countP_cons, LogEntry.isAccess, accessEntry]
  · intro hw hne hempty
    cases hpv : progPanicVal p with
    | none => exact absurd hpv hne
    | some v =>
        rw [hpv] at hsw
        rw [hw, hempty] at hsw
        simp at hsw
        simp [wireStatus, hsw]

/-- Witness for the amended C5 at a panicking handler that wrote nothing:
the one access record carries 500, which is also the wire status. -/
theorem c5_logger_one_record_last_status_witness :
    sampleReq.method = "GET" ∧ sampleReq.path = "/test"
    ∧ ∃ stf : World,
      (loggerRecoverRouter (.panicWith "boom") "GET" "/test").ServeHTTP .base sampleReq
          emptyWorld = .norm stf
      ∧ stf.logs = emptyWorld.logs
          ++ (match progPanicVal (.panicWith "boom") with
              | none => [accessEntry sampleReq (lastD (progWrites (.panicWith "boom")) 0)]
              | some v => [.panicLog v, .errorLog "recovering from panic" 500,
                  accessEntry sampleReq 500])
      ∧ (stf.logs.drop emptyWorld.logs.length).countP LogEntry.isAccess = 1
      ∧ stf.resp.statusWrites = emptyWorld.resp.statusWrites
          ++ progWrites (.panicWith "boom")
          ++ (match progPanicVal (.panicWith "boom") with | none => [] | some _ => [500])
      ∧ (progWrites (.panicWith "boom") = [] → progPanicVal (.panicWith "boom") ≠ none →
          emptyWorld.resp.statusWrites = [] → wireStatus stf.resp = 500) :=
  ⟨rfl, rfl, c5_logger_one_record_last_status (.panicWith "boom") "GET" "/test" sampleReq
    emptyWorld rfl rfl⟩

/-- C6: a JSON-encoding failure in the error-body write path is returned
to the caller (not swallowed: the state, including the log stream, is
untouched and no render policy runs again), and the render policy's own
`map[string]string` body never fails to encode. -/
theorem c6_encoding_failure_surfaced (w : Writer) (s : Int) (p : Payload) (st : World)
    (h : jsonMarshal p = none) :
    ((RespondJSON w s p st).2 = some (.basic "json: unsupported value")
      ∧ (RespondJSON w s p st).1 = st
      ∧ (RespondJSON w s p st).1.logs = st.logs)
    ∧ (∀ m : String, jsonMarshal (Payload.strMap [("error", m)]) ≠ none) := by
  refine ⟨by simp [RespondJSON, h], ?_⟩
  intro m
  simp [jsonMarshal]

/-- Witness for C6 at an unencodable payload. -/
theorem c6_encoding_failure_surfaced_witness :
    jsonMarshal (.unsupported "chan value") = none
    ∧ ((RespondJSON .base 500 (.unsupported "chan value") emptyWorld).2
          = some (.basic "json: unsupported value")
      ∧ (RespondJSON .base 500 (.unsupported "chan value") emptyWorld).1 = emptyWorld
      ∧ (RespondJSON .base 500 (.unsupported "chan value") emptyWorld).1.logs
          = emptyWorld.logs)
    ∧ (∀ m : String, jsonMarshal (Payload.strMap [("error", m)]) ≠ none) :=
  ⟨rfl, (c6_encoding_failure_surfaced .base 500 (.unsupported "chan value") emptyWorld rfl).1,
    (c6_encoding_failure_surfaced .base 500 (.unsupported "chan value") emptyWorld rfl).2⟩

/-- C8: `NewError(status, err, expose...)` stores the status unchanged,
reports the underlying error's message, stores the first exposure flag,
and defaults the exposure flag to false when it is omitted. -/
theorem c8_NewError_fields (s : Int) (e : GoErr) (l : List Bool) :
    (NewError s e l).statusField = some s
    ∧ (NewError s e l).errMsg = e.errMsg
    ∧ (NewError s e l).exposeField = some (l.headD false)
    ∧ (NewError s e []).exposeField = some false := by
  refine ⟨rfl, rfl, ?_, rfl⟩
  cases l <;> rfl

/-- C9: `RespondJSON` sets `Content-Type: application/json`, writes the
status, and appends exactly the compact encoding; the error body has the
bit-exact shape of a braced single-key object with the escaped message. -/
theorem c9_RespondJSON_compact (s : Int) (m : String) (st : World) (payload : Payload)
    (b : String) (h : jsonMarshal payload = some b) :
    ((RespondJSON .base s payload st).2 = none
      ∧ (RespondJSON .base s payload st).1.resp.getHeader "Content-Type"
          = some "application/json"
      ∧ (RespondJSON .base s payload st).1.resp.statusWrites = st.resp.statusWrites ++ [s]
      ∧ (RespondJSON .base s payload st).1.resp.body = st.resp.body ++ b)
    ∧ jsonMarshal (Payload.strMap [("error", m)])
        = some ("\x7b\"error\":\"" ++ jsonEscape m ++ "\"\x7d") := by
  constructor
  · refine ⟨?_, ?_, ?_, ?_⟩ <;>
      simp only [RespondJSON, h, Respond, Writer.setHeader, Writer.writeHeader, Writer.write]
    · exact getHeader_setHeader_self st.resp "Content-Type" "application/json"
    · rfl
    · rfl
  · simp [jsonMarshal, marshal_error_body]

/-- Witness for C9 at a concrete encodable payload. -/
theorem c9_RespondJSON_compact_witness :
    jsonMarshal (.strMap [("id", "123")]) = some "\x7b\"id\":\"123\"\x7d"
    ∧ (((RespondJSON .base 200 (.strMap [("id", "123")]) emptyWorld).2 = none
      ∧ (RespondJSON .base 200 (.strMap [("id", "123")]) emptyWorld).1.resp.getHeader
          "Content-Type" = some "application/json"
      ∧ (RespondJSON .base 200 (.strMap [("id", "123")]) emptyWorld).1.resp.statusWrites
          = emptyWorld.resp.statusWrites ++ [200]
      ∧ (RespondJSON .base 200 (.strMap [("id", "123")]) emptyWorld).1.resp.body
          = emptyWorld.resp.body ++ "\x7b\"id\":\"123\"\x7d")
      ∧ jsonMarshal (Payload.strMap [("error", "missing")])
          = some ("\x7b\"error\":\"" ++ jsonEscape "missing" ++ "\"\x7d")) :=
  ⟨rfl, c9_RespondJSON_compact 200 "missing" emptyWorld (.strMap [("id", "123")])
    "\x7b\"id\":\"123\"\x7d" rfl⟩

/-- C10: when encoding fails, `RespondJSON` returns the error with the
response state unchanged: no header set, no status written, no body. -/
theorem c10_RespondJSON_failure_no_write (w : Writer) (s : Int) (p : Payload) (st : World)
    (h : jsonMarshal p = none) :
    RespondJSON w s p st = (st, some (.basic "json: unsupported value"))
    ∧ (RespondJSON w s p st).1.resp.headers = st.resp.headers
    ∧ (RespondJSON w s p st).1.resp.statusWrites = st.resp.statusWrites
    ∧ (RespondJSON w s p st).1.resp.body = st.resp.body := by
  simp [RespondJSON, h]

/-- Witness for C10 at an unencodable payload. -/
theorem c10_RespondJSON_failure_no_write_witness :
    jsonMarshal (.unsupported "func value") = none
    ∧ (RespondJSON .base 201 (.unsupported "func value") emptyWorld
        = (emptyWorld, some (.basic "json: unsupported value"))
      ∧ (RespondJSON .base 201 (.unsupported "func value") emptyWorld).1.resp.headers
          = emptyWorld.resp.headers
      ∧ (RespondJSON .base 201 (.unsupported "func value") emptyWorld).1.resp.statusWrites
          = emptyWorld.resp.statusWrites
      ∧ (RespondJSON .base 201 (.unsupported "func value") emptyWorld).1.resp.body
          = emptyWorld.resp.body) :=
  ⟨rfl, c10_RespondJSON_failure_no_write .base 201 (.unsupported "func value") emptyWorld rfl⟩

end Httpd
